import Mathlib

/-!
Verification of the client-side WebSocket opening-handshake core of the
`websockets` repository (sans-I/O protocol engine).

The repository ships two source files: `src/websockets/events.py` (the event
types, embedded directly below) and `tests/test_client.py` (the unit tests of
the engine).  The engine itself (`client.py`, `datastructures.py`, `utils.py`,
`http11.py`) is not part of the sources; its behaviour is modelled from the
specification, and wherever the tests in `tests/test_client.py` pin down an
observable behaviour (header-collection assignment semantics, extension
negotiation fallback, response bodies), the model follows the tests.
-/

set_option maxRecDepth 100000

namespace Websockets

/-! ## Character and string utilities

The engine compares header names case-insensitively and tokenises header
values on commas and semicolons.  Everything is implemented by structural
recursion over `List Char` so that all definitions evaluate inside `decide`.
-/

/-- ASCII lower-casing of a character (the only case folding HTTP needs). -/
def lowerChar (c : Char) : Char :=
  if 65 ≤ c.toNat ∧ c.toNat ≤ 90 then Char.ofNat (c.toNat + 32) else c

/-- ASCII lower-casing of a string. -/
def lowerStr (s : String) : String := String.mk (s.data.map lowerChar)

/-- Linear whitespace accepted around HTTP tokens. -/
def isLWS (c : Char) : Bool := c = ' ' ∨ c = '\t'

/-- Strip leading and trailing linear whitespace. -/
def trimChars (cs : List Char) : List Char :=
  ((cs.dropWhile isLWS).reverse.dropWhile isLWS).reverse

/-- Split a character list at every occurrence of `sep` (separators dropped). -/
def splitChar (sep : Char) : List Char → List (List Char)
  | [] => [[]]
  | c :: rest =>
    if c = sep then [] :: splitChar sep rest
    else
      match splitChar sep rest with
      | [] => [[c]]
      | g :: gs => (c :: g) :: gs

/-- Split at the first occurrence of `sep`, if any. -/
def splitFirst (sep : Char) : List Char → Option (List Char × List Char)
  | [] => none
  | c :: rest =>
    if c = sep then some ([], rest)
    else (splitFirst sep rest).map (fun p => (c :: p.1, p.2))

/-- Join strings with `", "`, as Python's `", ".join(...)` does. -/
def joinComma : List String → String
  | [] => ""
  | [s] => s
  | s :: rest => s ++ ", " ++ joinComma rest

/-- Accumulate decimal digits; fails on a non-digit. -/
def digitsToNat : List Char → Nat → Option Nat
  | [], acc => some acc
  | c :: cs, acc =>
    if 48 ≤ c.toNat ∧ c.toNat ≤ 57 then digitsToNat cs (acc * 10 + (c.toNat - 48))
    else none

/-- Parse a non-empty all-digit character list as a natural number. -/
def parseNatDigits (l : List Char) : Option Nat :=
  match l with
  | [] => none
  | _ => digitsToNat l 0

/-! ## Key/Accept cryptography (spec section 4.2)

`compute_accept(key) = base64(SHA1(key || GUID))`.  SHA-1 and base64 are
implemented from their standards over byte lists (`List Nat`, each < 256),
with machine words as `Nat` reduced `% 2^32`.
-/

/-- 32-bit rotate left. -/
def rotl32 (n x : Nat) : Nat := ((x <<< n) ||| (x >>> (32 - n))) % 4294967296

/-- SHA-1 round function `f_t(b,c,d)`. -/
def sha1f (t b c d : Nat) : Nat :=
  if t < 20 then (b &&& c) ||| ((b ^^^ 4294967295) &&& d)
  else if t < 40 then b ^^^ c ^^^ d
  else if t < 60 then (b &&& c) ||| (b &&& d) ||| (c &&& d)
  else b ^^^ c ^^^ d

/-- SHA-1 round constant `K_t`. -/
def sha1k (t : Nat) : Nat :=
  if t < 20 then 0x5A827999
  else if t < 40 then 0x6ED9EBA1
  else if t < 60 then 0x8F1BBCDC
  else 0xCA62C1D6

/-- Big-endian byte serialisation of `x` on `n` bytes. -/
def toBytesBE : Nat → Nat → List Nat
  | 0, _ => []
  | n + 1, x => toBytesBE n (x / 256) ++ [x % 256]

/-- Group bytes four at a time into big-endian 32-bit words. -/
def bytesToWords : List Nat → List Nat
  | b1 :: b2 :: b3 :: b4 :: rest =>
    (((b1 * 256 + b2) * 256 + b3) * 256 + b4) :: bytesToWords rest
  | _ => []

/-- Message schedule: extend 16 words to 80.  The accumulator is kept
reversed (head = most recent word), so `W[t-3]` is at index 2, `W[t-8]` at 7,
`W[t-14]` at 13 and `W[t-16]` at 15. -/
def sha1expand : Nat → List Nat → List Nat
  | 0, acc => acc.reverse
  | n + 1, acc =>
    sha1expand n
      (rotl32 1 ((acc.getD 2 0) ^^^ (acc.getD 7 0) ^^^ (acc.getD 13 0) ^^^ (acc.getD 15 0)) :: acc)

/-- The 80 SHA-1 rounds over the expanded schedule. -/
def sha1rounds : Nat → List Nat → Nat × Nat × Nat × Nat × Nat → Nat × Nat × Nat × Nat × Nat
  | _, [], st => st
  | t, w :: ws, (a, b, c, d, e) =>
    sha1rounds (t + 1) ws
      ((rotl32 5 a + sha1f t b c d + e + sha1k t + w) % 4294967296, a, rotl32 30 b, c, d)

/-- Compress one 16-word block into the running hash state. -/
def sha1compress (h : Nat × Nat × Nat × Nat × Nat) (block : List Nat) :
    Nat × Nat × Nat × Nat × Nat :=
  let w := sha1expand 64 block.reverse
  match sha1rounds 0 w h with
  | (a, b, c, d, e) =>
    ((h.1 + a) % 4294967296, (h.2.1 + b) % 4294967296, (h.2.2.1 + c) % 4294967296,
     (h.2.2.2.1 + d) % 4294967296, (h.2.2.2.2 + e) % 4294967296)

/-- Fold the compression function over consecutive 16-word blocks. -/
def sha1blocks (h : Nat × Nat × Nat × Nat × Nat) : List Nat → Nat × Nat × Nat × Nat × Nat
  | w0 :: w1 :: w2 :: w3 :: w4 :: w5 :: w6 :: w7 :: w8 :: w9 :: w10 :: w11 :: w12 :: w13 :: w14 :: w15 :: rest =>
    sha1blocks (sha1compress h [w0, w1, w2, w3, w4, w5, w6, w7, w8, w9, w10, w11, w12, w13, w14, w15]) rest
  | _ => h

/-- Standard SHA-1 padding: `0x80`, zeros to 56 mod 64, 64-bit bit length. -/
def sha1pad (msg : List Nat) : List Nat :=
  msg ++ 128 :: List.replicate ((119 - msg.length % 64) % 64) 0 ++ toBytesBE 8 (8 * msg.length)

/-- SHA-1 digest (20 bytes) of a byte list. -/
def sha1 (msg : List Nat) : List Nat :=
  match sha1blocks (0x67452301, 0xEFCDAB89, 0x98BADCFE, 0x10325476, 0xC3D2E1F0)
      (bytesToWords (sha1pad msg)) with
  | (h0, h1, h2, h3, h4) =>
    toBytesBE 4 h0 ++ toBytesBE 4 h1 ++ toBytesBE 4 h2 ++ toBytesBE 4 h3 ++ toBytesBE 4 h4

/-- The base64 alphabet. -/
def b64alphabet : List Char :=
  "ABCDEFGHIJKLMNOPQRSTUVWXYZabcdefghijklmnopqrstuvwxyz0123456789+/".data

/-- Character for a 6-bit group. -/
def b64char (n : Nat) : Char := b64alphabet.getD n 'A'

/-- Standard base64 encoding with `=` padding. -/
def b64encode : List Nat → String
  | [] => ""
  | [b1] => String.mk [b64char (b1 / 4), b64char (b1 % 4 * 16)] ++ "=="
  | [b1, b2] =>
    String.mk [b64char (b1 / 4), b64char (b1 % 4 * 16 + b2 / 16), b64char (b2 % 16 * 4)] ++ "="
  | b1 :: b2 :: b3 :: rest =>
    String.mk [b64char (b1 / 4), b64char (b1 % 4 * 16 + b2 / 16),
               b64char (b2 % 16 * 4 + b3 / 64), b64char (b3 % 64)] ++ b64encode rest

/-- UTF-8 bytes of one code point. -/
def utf8Char (n : Nat) : List Nat :=
  if n < 128 then [n]
  else if n < 2048 then [192 + n / 64, 128 + n % 64]
  else if n < 65536 then [224 + n / 4096, 128 + n / 64 % 64, 128 + n % 64]
  else [240 + n / 262144, 128 + n / 4096 % 64, 128 + n / 64 % 64, 128 + n % 64]

/-- UTF-8 encoding of a character list. -/
def utf8Encode : List Char → List Nat
  | [] => []
  | c :: cs => utf8Char c.toNat ++ utf8Encode cs

/-- The bytes of a string, as Python's `str.encode()` produces them. -/
def strBytes (s : String) : List Nat := utf8Encode s.data

/-- The WebSocket GUID of RFC 6455 section 1.3. -/
def GUID : String := "258EAFA5-E914-47DA-95CA-C5AB0DC85B11"

/-- Modelled from the spec: `compute_accept` of section 4.2 (the repository's
`websockets.utils.accept`, whose source is not shipped):
`base64(SHA1(key || GUID))`. -/
def compute_accept (key : String) : String := b64encode (sha1 (strBytes (key ++ GUID)))

/-! ## Data model: header collection, request, response, errors, events -/

/-- Modelled from the spec: the `Headers` collection of
`websockets.datastructures` (not shipped): an ordered list of name/value
pairs with case-insensitive name lookup.  The spec leaves the semantics of
assigning an already-present name as an open question (sections 8 and 9);
the tests `test_multiple_accept`, `test_multiple_extensions` and
`test_multiple_subprotocols` in `tests/test_client.py` pin it down:
assignment appends a further value, it does not replace. -/
structure Headers where
  entries : List (String × String)
deriving DecidableEq

/-- Header assignment (`headers[name] = value` in the tests): appends. -/
def Headers.add (h : Headers) (name value : String) : Headers :=
  ⟨h.entries ++ [(name, value)]⟩

/-- All values stored under `name`, case-insensitively, in insertion order. -/
def Headers.getAll (h : Headers) (name : String) : List String :=
  (h.entries.filter (fun e => lowerStr e.1 == lowerStr name)).map Prod.snd

/-- Single-value read (`headers[name]` on a singly-assigned name). -/
def Headers.firstValue (h : Headers) (name : String) : String :=
  (h.getAll name).headD ""

/-- Modelled from the spec: `Request` of `websockets.http11` (not shipped):
method fixed to GET, path, header collection. -/
structure Request where
  path : String
  headers : Headers
deriving DecidableEq

/-- Modelled from the spec: `Response` of `websockets.http11` (not shipped):
status code, reason phrase, headers, optional raw body. -/
structure Response where
  status_code : Nat
  reason_phrase : String
  headers : Headers
  body : Option String
deriving DecidableEq

/-- Modelled from the spec: the handshake error taxonomy of section 7
(`websockets.exceptions`, not shipped), restricted to the errors the
response-processing path can produce. -/
inductive HandshakeError where
  | invalidHeader (msg : String)
  | invalidHandshake (msg : String)
deriving DecidableEq

/-- `Connect` event of `src/websockets/events.py`: carries the request. -/
structure Connect where
  request : Request
deriving DecidableEq

/-- `Accept` event of `src/websockets/events.py`: carries the response. -/
structure Accept where
  response : Response
deriving DecidableEq

/-- `Reject` event of `src/websockets/events.py`: carries the response and
the triggering exception (`none` when the server simply declined with a
non-101 status). -/
structure Reject where
  response : Response
  exception : Option HandshakeError
deriving DecidableEq

/-- The tagged union of events (`Event` base class of
`src/websockets/events.py`). -/
inductive Event where
  | connect (event : Connect)
  | accept (event : Accept)
  | reject (event : Reject)
deriving DecidableEq

/-- Connection state enum of section 3 (`websockets.connection`, not
shipped). -/
inductive ConnectionState where
  | CONNECTING
  | OPEN
  | CLOSING
  | CLOSED
deriving DecidableEq

/-! ## Extension factories and negotiation (spec sections 3, 4.4) -/

/-- A `(key, optional value)` extension parameter. -/
abbrev ExtParam := String × Option String

/-- Modelled from the spec: the `ExtensionFactory` capability of section 3:
a name, the parameters offered in the request, and the response-parameter
negotiation, which may reject (`none` models raising `NegotiationError`). -/
structure ExtensionFactory (E : Type) where
  name : String
  get_request_params : List ExtParam
  process_response_params : List ExtParam → List E → Option E

/-- The concrete extensions of `tests/test_client.py` (`OpExtension`,
`Rsv2Extension`); only their identity matters to the engine. -/
inductive TestExtension where
  | OpExtension (op : Option String)
  | Rsv2Extension
deriving DecidableEq

/-- `ClientOpExtensionFactory` of `tests/test_client.py`: accepts exactly
the parameters `[("op", op)]` and produces `OpExtension op`, otherwise
raises `NegotiationError`. -/
def ClientOpExtensionFactory (op : Option String) : ExtensionFactory TestExtension :=
  { name := "x-op",
    get_request_params := [("op", op)],
    process_response_params := fun params _accepted =>
      if params = [("op", op)] then some (.OpExtension op) else none }

/-- `ClientRsv2ExtensionFactory` of `tests/test_client.py`: offers no
parameters and accepts anything. -/
def ClientRsv2ExtensionFactory : ExtensionFactory TestExtension :=
  { name := "x-rsv2",
    get_request_params := [],
    process_response_params := fun _params _accepted => some .Rsv2Extension }

/-- One extension parameter from its wire form (`key` or `key=value`). -/
def parse_ext_param (p : List Char) : ExtParam :=
  match splitFirst '=' p with
  | none => (String.mk p, none)
  | some (k, v) => (String.mk (trimChars k), some (String.mk (trimChars v)))

/-- One extension token: `name; param; param=value; ...`. -/
def parse_extension_item (tok : List Char) : String × List ExtParam :=
  match (splitChar ';' tok).map trimChars with
  | [] => ("", [])
  | name :: ps => (String.mk name, ps.map parse_ext_param)

/-- A `Sec-WebSocket-Extensions` header value: comma-joined tokens. -/
def parse_extension_value (v : String) : List (String × List ExtParam) :=
  ((splitChar ',' v.data).map trimChars).map parse_extension_item

/-- A `Sec-WebSocket-Protocol` header value: comma-joined names. -/
def parse_subprotocol_value (v : String) : List String :=
  ((splitChar ',' v.data).map trimChars).map String.mk

/-- Whether a `Connection` header value contains the token `Upgrade`,
case-insensitively. -/
def connection_contains_upgrade (v : String) : Bool :=
  (((splitChar ',' v.data).map trimChars).map (fun t => String.mk (t.map lowerChar))).contains
    "upgrade"

/-- Python `repr` of one extension parameter, as it appears in the
`Unsupported extension` message. -/
def reprExtParam : ExtParam → String
  | (k, none) => "(\x27" ++ k ++ "\x27, None)"
  | (k, some v) => "(\x27" ++ k ++ "\x27, \x27" ++ v ++ "\x27)"

/-- Python `repr` of an extension parameter list. -/
def reprExtParams (ps : List ExtParam) : String :=
  "[" ++ joinComma (ps.map reprExtParam) ++ "]"

/-- The `Unsupported extension` failure message of spec section 4.4. -/
def unsupported_extension_msg (name : String) (ps : List ExtParam) : String :=
  "Unsupported extension: name = " ++ name ++ ", params = " ++ reprExtParams ps

/-- Modelled from the spec: negotiation of one server-advertised extension
token (the inner factory loop of `process_extensions` in
`websockets.client`, not shipped).  Factories are scanned in client-declared
order; a factory whose name does not match is skipped, and — as the test
`test_multiple_supported_extension_parameters` requires — a matching factory
that rejects the parameters (`NegotiationError`) is also skipped, falling
through to later factories.  `none` means no factory accepted the token. -/
def negotiate_token {E : Type} (factories : List (ExtensionFactory E))
    (name : String) (params : List ExtParam) (accepted : List E) : Option E :=
  match factories with
  | [] => none
  | f :: fs =>
    if f.name = name then
      match f.process_response_params params accepted with
      | some e => some e
      | none => negotiate_token fs name params accepted
    else negotiate_token fs name params accepted

/-- Modelled from the spec: the outer loop of extension negotiation
(section 4.4, step 4): server-advertised tokens are processed in the order
the server listed them, each successful extension being appended to the
accepted list; a token no factory accepts fails the handshake. -/
def process_extensions {E : Type} (factories : List (ExtensionFactory E)) :
    List (String × List ExtParam) → List E → Except HandshakeError (List E)
  | [], accepted => .ok accepted
  | t :: ts, accepted =>
    match negotiate_token factories t.1 t.2 accepted with
    | none => .error (.invalidHandshake (unsupported_extension_msg t.1 t.2))
    | some e => process_extensions factories ts (accepted ++ [e])

/-- Modelled from the spec: extension negotiation entry point (section 4.4,
step 4): an absent header yields no extensions; a present header with no
offered factories fails with `no extensions supported`. -/
def process_extensions_header {E : Type} (factories : List (ExtensionFactory E))
    (resp : Response) : Except HandshakeError (List E) :=
  let vs := resp.headers.getAll "Sec-WebSocket-Extensions"
  if vs.isEmpty then .ok []
  else if factories.isEmpty then .error (.invalidHandshake "no extensions supported")
  else process_extensions factories ((vs.map parse_extension_value).flatten) []

/-- Modelled from the spec: subprotocol negotiation (section 4.4, step 5):
absent header yields `none`; a header with no offered subprotocols fails;
more than one resulting name fails with the comma-joined list; a name not
offered fails; otherwise the single name is selected. -/
def process_subprotocol_header (offered : List String) (resp : Response) :
    Except HandshakeError (Option String) :=
  let vs := resp.headers.getAll "Sec-WebSocket-Protocol"
  if vs.isEmpty then .ok none
  else if offered.isEmpty then .error (.invalidHandshake "no subprotocols supported")
  else
    match (vs.map parse_subprotocol_value).flatten with
    | [] => .ok none
    | [s] =>
      if offered.contains s then .ok (some s)
      else .error (.invalidHandshake ("unsupported subprotocol: " ++ s))
    | names => .error (.invalidHandshake ("multiple subprotocols: " ++ joinComma names))

/-! ## The client connection engine (spec sections 4.3, 4.4, 4.5) -/

/-- The fixed library identifier sent as `User-Agent` (spec section 4.3). -/
def USER_AGENT : String := "Python/3 websockets/9"

/-- Modelled from the spec: the `ClientConnection` engine of
`websockets.client` (not shipped).  The negotiation configuration (host and
resource derived from the URI, origin, ordered extension factories, ordered
subprotocols) is immutable; the handshake key is injected at construction
(section 9, randomness injection) and bound to the single `Connect` event. -/
structure ClientConnection (E : Type) where
  host : String
  resource : String
  origin : Option String
  available_extensions : List (ExtensionFactory E)
  available_subprotocols : List String
  key : String
  state : ConnectionState
  buffer : String
  extensions : List E
  subprotocol : Option String

/-- Serialisation of one factory's offer in `Sec-WebSocket-Extensions`
(spec section 4.3): `name`, then `; key` or `; key=value` per parameter. -/
def serialize_offer {E : Type} (f : ExtensionFactory E) : String :=
  f.name ++ String.join (f.get_request_params.map (fun p =>
    "; " ++ p.1 ++ (match p.2 with | none => "" | some v => "=" ++ v)))

/-- Modelled from the spec: the request builder of section 4.3: mandatory
headers, then optional `Origin`, `Sec-WebSocket-Extensions`,
`Sec-WebSocket-Protocol`, then `User-Agent`. -/
def build_request {E : Type} (c : ClientConnection E) : Request :=
  { path := c.resource,
    headers := ⟨[("Host", c.host), ("Upgrade", "websocket"), ("Connection", "Upgrade"),
        ("Sec-WebSocket-Key", c.key), ("Sec-WebSocket-Version", "13")]
      ++ (match c.origin with | none => [] | some o => [("Origin", o)])
      ++ (if c.available_extensions.isEmpty then []
          else [("Sec-WebSocket-Extensions",
                 joinComma (c.available_extensions.map serialize_offer))])
      ++ (if c.available_subprotocols.isEmpty then []
          else [("Sec-WebSocket-Protocol", joinComma c.available_subprotocols)])
      ++ [("User-Agent", USER_AGENT)]⟩ }

/-- `connect()` (spec section 4.5): returns the initiating `Connect` event. -/
def ClientConnection.connect {E : Type} (c : ClientConnection E) : Connect :=
  ⟨build_request c⟩

/-- Modelled from the spec: `process_response` (section 4.4).  Validates
`Connection`, `Upgrade` and `Sec-WebSocket-Accept` in that order, then
negotiates extensions and subprotocol. -/
def ClientConnection.process_response {E : Type} (c : ClientConnection E)
    (resp : Response) : Except HandshakeError (List E × Option String) :=
  match resp.headers.getAll "Connection" with
  | [] => .error (.invalidHeader "missing Connection header")
  | [cv] =>
    if connection_contains_upgrade cv then
      match resp.headers.getAll "Upgrade" with
      | [] => .error (.invalidHeader "missing Upgrade header")
      | [uv] =>
        if lowerStr uv = "websocket" then
          match resp.headers.getAll "Sec-WebSocket-Accept" with
          | [] => .error (.invalidHeader "missing Sec-WebSocket-Accept header")
          | [av] =>
            if av = compute_accept c.key then
              match process_extensions_header c.available_extensions resp with
              | .error e => .error e
              | .ok exts =>
                match process_subprotocol_header c.available_subprotocols resp with
                | .error e => .error e
                | .ok sub => .ok (exts, sub)
            else .error (.invalidHeader ("invalid Sec-WebSocket-Accept header: " ++ av))
          | _ => .error (.invalidHeader "more than one Sec-WebSocket-Accept header found")
        else .error (.invalidHeader ("invalid Upgrade header: " ++ uv))
      | uvs => .error (.invalidHeader ("invalid Upgrade header: " ++ joinComma uvs))
    else .error (.invalidHeader ("invalid Connection header: " ++ cv))
  | cvs => .error (.invalidHeader ("invalid Connection header: " ++ joinComma cvs))

/-! ## The external HTTP/1.1 response parser (spec section 6)

The parser collaborator turns bytes into a parsed response head or signals
incompleteness.  Per the test `test_reject_response` ("Currently websockets
does not read response bodies"), only the head is parsed and `body` is
always `none`. -/

/-- Locate the first `CRLF CRLF`; returns the bytes before and after it. -/
def findDoubleCRLF : List Char → Option (List Char × List Char)
  | '\r' :: '\n' :: '\r' :: '\n' :: rest => some ([], rest)
  | c :: rest => (findDoubleCRLF rest).map (fun p => (c :: p.1, p.2))
  | [] => none

/-- Drop one trailing `'\r'`, left over after splitting on `'\n'`. -/
def dropLastCR (l : List Char) : List Char :=
  match l.reverse with
  | '\r' :: rest => rest.reverse
  | _ => l

/-- Parse `Name: value` header lines. -/
def parse_header_lines : List (List Char) → Option (List (String × String))
  | [] => some []
  | line :: rest =>
    match splitFirst ':' line with
    | none => none
    | some (name, value) =>
      (parse_header_lines rest).map
        (fun hs => (String.mk name, String.mk (trimChars value)) :: hs)

/-- Parse the status line `HTTP/1.1 <code> <reason>`. -/
def parse_status_line (line : List Char) : Option (Nat × String) :=
  match splitFirst ' ' line with
  | none => none
  | some (proto, rest) =>
    if proto = "HTTP/1.1".data then
      match splitFirst ' ' rest with
      | none => none
      | some (code, reason) =>
        match parseNatDigits code with
        | none => none
        | some n => some (n, String.mk reason)
    else none

/-- Modelled from the spec: the external HTTP/1.1 response parser
(`websockets.http11`, not shipped): `none` when the head is still
incomplete or malformed, otherwise the parsed head with `body := none`. -/
def parse_response (data : String) : Option Response :=
  match findDoubleCRLF data.data with
  | none => none
  | some (head, _) =>
    match splitChar '\n' head with
    | [] => none
    | statusLine :: headerLines =>
      match parse_status_line (dropLastCR statusLine) with
      | none => none
      | some (code, reason) =>
        match parse_header_lines (headerLines.map dropLastCR) with
        | none => none
        | some hs =>
          some { status_code := code, reason_phrase := reason, headers := ⟨hs⟩,
                 body := none }

/-- Modelled from the spec: `receive_data` (section 4.5).  Buffers bytes
until a full response head parses; a 101 status runs section 4.4 and on
success emits `Accept` and opens the connection, on failure emits `Reject`
with the error; any other status emits `Reject` with no error and leaves the
state unchanged.  `bytes_to_send` is always empty on this path. -/
def receive_data {E : Type} (c : ClientConnection E) (data : String) :
    (List Event × String) × ClientConnection E :=
  let buf := c.buffer ++ data
  match parse_response buf with
  | none => (([], ""), { c with buffer := buf })
  | some resp =>
    if resp.status_code = 101 then
      match c.process_response resp with
      | .ok (exts, sub) =>
        (([Event.accept ⟨resp⟩], ""),
         { c with buffer := "", state := .OPEN, extensions := exts, subprotocol := sub })
      | .error e => (([Event.reject ⟨resp, some e⟩], ""), { c with buffer := "" })
    else (([Event.reject ⟨resp, none⟩], ""), { c with buffer := "" })

/-- The accept response the tests build (`make_accept_response` in
`tests/test_client.py`): a 101 with `Upgrade`, `Connection` and the accept
value computed from the request's echoed key. -/
def make_accept_response (req : Request) : Response :=
  { status_code := 101,
    reason_phrase := "Switching Protocols",
    headers := (((Headers.mk []).add "Upgrade" "websocket").add "Connection" "Upgrade").add
      "Sec-WebSocket-Accept" (compute_accept (req.headers.firstValue "Sec-WebSocket-Key")),
    body := none }

end Websockets

deriving instance DecidableEq for Except

namespace Websockets

/-! ## Concrete fixtures mirroring `tests/test_client.py` -/

/-- The fixed handshake key the tests inject (`tests/test_utils.KEY`,
the RFC 6455 sample nonce). -/
def KEY : String := "dGhlIHNhbXBsZSBub25jZQ=="

/-- The accept value for `KEY` (`tests/test_utils.ACCEPT`). -/
def ACCEPT : String := "s3pPLMBiTxaQ9kYGzzhZRbK+xOo="

/-- A client for `ws://example.com/test` with the injected `KEY` and the
given negotiation configuration. -/
def mkClient (exts : List (ExtensionFactory TestExtension)) (subs : List String) :
    ClientConnection TestExtension :=
  { host := "example.com", resource := "/test", origin := none,
    available_extensions := exts, available_subprotocols := subs,
    key := KEY, state := .CONNECTING, buffer := "",
    extensions := [], subprotocol := none }

/-- The wire bytes of the accepting response of `test_receive_accept`. -/
def accept_data : String :=
  "HTTP/1.1 101 Switching Protocols\r\nUpgrade: websocket\r\nConnection: Upgrade\r\nSec-WebSocket-Accept: s3pPLMBiTxaQ9kYGzzhZRbK+xOo=\r\nServer: test\r\n\r\n"

/-- The parsed head of `accept_data`. -/
def accept_resp : Response :=
  { status_code := 101, reason_phrase := "Switching Protocols",
    headers := ⟨[("Upgrade", "websocket"), ("Connection", "Upgrade"),
                 ("Sec-WebSocket-Accept", "s3pPLMBiTxaQ9kYGzzhZRbK+xOo="),
                 ("Server", "test")]⟩,
    body := none }

/-- The wire bytes of the rejecting response of `test_receive_reject`,
announcing and carrying a body. -/
def reject_data : String :=
  "HTTP/1.1 404 Not Found\r\nServer: test\r\nContent-Length: 9\r\nContent-Type: text/plain\r\nConnection: close\r\n\r\nDeclined."

/-- The parsed head of `reject_data`. -/
def reject_resp : Response :=
  { status_code := 404, reason_phrase := "Not Found",
    headers := ⟨[("Server", "test"), ("Content-Length", "9"),
                 ("Content-Type", "text/plain"), ("Connection", "close")]⟩,
    body := none }

/-- Assigning one more header on a response (`response.headers[n] = v` in
the tests). -/
def Response.addHeader (r : Response) (n v : String) : Response :=
  { r with headers := r.headers.add n v }

/-! ## General lemmas about the embedding -/

/-- Prepending the empty string is the identity. -/
theorem string_empty_append (s : String) : "" ++ s = s := by
  apply String.ext
  simp [String.data_append]

/-- UTF-8 encoding distributes over list append. -/
theorem utf8Encode_append (l m : List Char) :
    utf8Encode (l ++ m) = utf8Encode l ++ utf8Encode m := by
  induction l with
  | nil => rfl
  | cons c cs ih => simp [utf8Encode, ih]

/-- String bytes distribute over string append. -/
theorem strBytes_append (s t : String) : strBytes (s ++ t) = strBytes s ++ strBytes t := by
  unfold strBytes
  rw [String.data_append, utf8Encode_append]

/-! ## Claims -/

/-- C3: `compute_accept` is a pure, deterministic function of its key,
equal to `base64(SHA1(key || GUID))`, and it maps the RFC 6455 sample key
`dGhlIHNhbXBsZSBub25jZQ==` to `s3pPLMBiTxaQ9kYGzzhZRbK+xOo=`. -/
theorem claim_C3 :
    compute_accept "dGhlIHNhbXBsZSBub25jZQ==" = "s3pPLMBiTxaQ9kYGzzhZRbK+xOo=" ∧
    ∀ key : String, compute_accept key = b64encode (sha1 (strBytes key ++ strBytes GUID)) := by
  constructor
  · decide
  · intro key
    unfold compute_accept
    rw [strBytes_append]

/-- C10: the event types form a tagged union whose variants carry exactly
the request (`Connect`), the response (`Accept`), and the response together
with the triggering error (`Reject`); two events of the same variant are
equal exactly when their corresponding fields are equal. -/
theorem claim_C10 :
    (∀ r1 r2 : Request, Connect.mk r1 = Connect.mk r2 ↔ r1 = r2) ∧
    (∀ p1 p2 : Response, Accept.mk p1 = Accept.mk p2 ↔ p1 = p2) ∧
    (∀ (p1 p2 : Response) (e1 e2 : Option HandshakeError),
      Reject.mk p1 e1 = Reject.mk p2 e2 ↔ p1 = p2 ∧ e1 = e2) := by
  refine ⟨fun r1 r2 => ?_, fun p1 p2 => ?_, fun p1 p2 e1 e2 => ?_⟩ <;>
    simp [Connect.mk.injEq, Accept.mk.injEq, Reject.mk.injEq]

/-- C6 counterexample: assigning a second value under an already-present
header name does not replace the first one — both values remain, in
assignment order, so the collection does not hold exactly the last value. -/
theorem claim_C6_cex :
    ((((Headers.mk []).add "Sec-WebSocket-Protocol" "superchat").add
        "Sec-WebSocket-Protocol" "chat").getAll "Sec-WebSocket-Protocol"
      = ["superchat", "chat"]) ∧
    ¬ ((((Headers.mk []).add "Sec-WebSocket-Protocol" "superchat").add
        "Sec-WebSocket-Protocol" "chat").getAll "Sec-WebSocket-Protocol"
      = ["chat"]) := by
  constructor
  · decide
  · decide

/-- C6 as amended: assigning a value under a name that already holds values
appends a further value; two successive assignments leave both values, in
assignment order, after whatever the name held before. -/
theorem claim_C6 (h : Headers) (n v1 v2 : String) :
    ((h.add n v1).add n v2).getAll n = h.getAll n ++ [v1, v2] := by
  unfold Headers.add Headers.getAll
  simp [List.filter_append]

/-- When the `Connection`, `Upgrade` and `Sec-WebSocket-Accept` checks all
pass, `process_response` reduces to extension and subprotocol negotiation. -/
theorem process_response_of_valid_handshake {E : Type} (c : ClientConnection E)
    (resp : Response) (cv uv : String)
    (hconn : resp.headers.getAll "Connection" = [cv])
    (hcv : connection_contains_upgrade cv = true)
    (hup : resp.headers.getAll "Upgrade" = [uv])
    (huv : lowerStr uv = "websocket")
    (hacc : resp.headers.getAll "Sec-WebSocket-Accept" = [compute_accept c.key]) :
    c.process_response resp =
      match process_extensions_header c.available_extensions resp with
      | .error e => .error e
      | .ok exts =>
        match process_subprotocol_header c.available_subprotocols resp with
        | .error e => .error e
        | .ok sub => .ok (exts, sub) := by
  unfold ClientConnection.process_response
  rw [hconn, hup, hacc]
  simp [hcv, huv]

/-- C4: a complete response with a status other than 101 produces exactly
one `Reject` event carrying that response and no error (no handshake
validation runs), empty bytes to send, and leaves the state `CONNECTING`. -/
theorem claim_C4 {E : Type} (c : ClientConnection E) (data : String) (resp : Response)
    (hbuf : c.buffer = "") (hparse : parse_response data = some resp)
    (hstatus : resp.status_code ≠ 101) (hstate : c.state = ConnectionState.CONNECTING) :
    (receive_data c data).1 = ([Event.reject ⟨resp, none⟩], "") ∧
    (receive_data c data).2.state = ConnectionState.CONNECTING := by
  unfold receive_data
  rw [hbuf, string_empty_append]
  simp only [hparse]
  simp [hstatus, hstate]

/-- C4 witness: the 404 rejection of `test_receive_reject`. -/
theorem claim_C4_witness :
    (receive_data (mkClient [] []) reject_data).1 = ([Event.reject ⟨reject_resp, none⟩], "") ∧
    (receive_data (mkClient [] []) reject_data).2.state = ConnectionState.CONNECTING :=
  claim_C4 (mkClient [] []) reject_data reject_resp (by decide) (by decide)
    (by decide) (by decide)

/-- C1: after `connect()`, a complete 101 response whose `Connection` header
contains the token `Upgrade`, whose `Upgrade` header equals `websocket`,
whose single `Sec-WebSocket-Accept` header equals the accept value of the
connection's key, and which advertises no extensions or subprotocols,
produces exactly one `Accept` event carrying that response, empty bytes to
send, and moves the state to `OPEN`. -/
theorem claim_C1 {E : Type} (c : ClientConnection E) (data : String) (resp : Response)
    (cv uv : String)
    (hbuf : c.buffer = "") (hparse : parse_response data = some resp)
    (hstatus : resp.status_code = 101)
    (hconn : resp.headers.getAll "Connection" = [cv])
    (hcv : connection_contains_upgrade cv = true)
    (hup : resp.headers.getAll "Upgrade" = [uv])
    (huv : lowerStr uv = "websocket")
    (hacc : resp.headers.getAll "Sec-WebSocket-Accept" = [compute_accept c.key])
    (hext : resp.headers.getAll "Sec-WebSocket-Extensions" = [])
    (hsub : resp.headers.getAll "Sec-WebSocket-Protocol" = []) :
    (receive_data c data).1 = ([Event.accept ⟨resp⟩], "") ∧
    (receive_data c data).2.state = ConnectionState.OPEN := by
  have hpr : c.process_response resp = .ok ([], none) := by
    rw [process_response_of_valid_handshake c resp cv uv hconn hcv hup huv hacc]
    unfold process_extensions_header process_subprotocol_header
    rw [hext, hsub]
    rfl
  unfold receive_data
  rw [hbuf, string_empty_append]
  simp only [hparse]
  simp [hstatus, hpr]

/-- C1 witness: the accepting response of `test_receive_accept` on a client
whose key is the RFC sample nonce. -/
theorem claim_C1_witness :
    (receive_data (mkClient [] []) accept_data).1 = ([Event.accept ⟨accept_resp⟩], "") ∧
    (receive_data (mkClient [] []) accept_data).2.state = ConnectionState.OPEN :=
  claim_C1 (mkClient [] []) accept_data accept_resp "Upgrade" "websocket"
    (by decide) (by decide) (by decide) (by decide) (by decide) (by decide)
    (by decide) (by decide) (by decide) (by decide)

/-- C2 (round-trip): on a client configured with no extension factories and
no subprotocols, the response that echoes the accept value computed from the
request's `Sec-WebSocket-Key` (as `make_accept_response` in the tests builds
it) passes `process_response` without any error. -/
theorem claim_C2 {E : Type} (c : ClientConnection E)
    (hext : c.available_extensions = []) (hsub : c.available_subprotocols = []) :
    c.process_response (make_accept_response c.connect.request) = .ok ([], none) := by
  obtain ⟨host, resource, origin, aexts, asubs, key, st, buf, exts0, sub0⟩ := c
  dsimp only at hext hsub
  subst hext hsub
  cases origin with
  | none =>
    rw [process_response_of_valid_handshake _ _ "Upgrade" "websocket" (by rfl) (by rfl)
        (by rfl) (by rfl) (by rfl)]
    rfl
  | some o =>
    rw [process_response_of_valid_handshake _ _ "Upgrade" "websocket" (by rfl) (by rfl)
        (by rfl) (by rfl) (by rfl)]
    rfl

/-- C2 witness: the round trip on the concrete test client. -/
theorem claim_C2_witness :
    (mkClient [] []).process_response (make_accept_response (mkClient [] []).connect.request)
      = .ok ([], none) :=
  claim_C2 (mkClient [] []) rfl rfl

/-- The client of `test_multiple_supported_extension_parameters`: two
same-named factories, the first accepting only `op=this`, the second only
`op=that`. -/
def c5client : ClientConnection TestExtension :=
  mkClient [ClientOpExtensionFactory (some "this"), ClientOpExtensionFactory (some "that")] []

/-- The accepting response advertising `x-op;op=that`. -/
def c5resp : Response :=
  (make_accept_response c5client.connect.request).addHeader
    "Sec-WebSocket-Extensions" "x-op;op=that"

/-- C5 counterexample: the first client factory whose name matches `x-op`
rejects the parameters `op=that` (raises `NegotiationError`), yet the
negotiation does not fail — the later same-named factory is tried and the
handshake succeeds with its extension.  The error therefore does not
propagate as the negotiation failure for that token. -/
theorem claim_C5_cex :
    (ClientOpExtensionFactory (some "this")).process_response_params
        [("op", some "that")] [] = none ∧
    (ClientOpExtensionFactory (some "this")).name = "x-op" ∧
    c5client.process_response c5resp
      = .ok ([TestExtension.OpExtension (some "that")], none) := by
  refine ⟨by decide, by decide, by decide⟩

/-- C5 as amended: when the first name-matching factory rejects a token's
parameters (`NegotiationError`), the factory is skipped and negotiation
falls through to the remaining factories, exactly as if it had not matched;
the token only fails the handshake — with the `Unsupported extension`
error — when no factory at all accepts it. -/
theorem claim_C5 {E : Type} (f : ExtensionFactory E) (fs : List (ExtensionFactory E))
    (name : String) (params : List ExtParam) (accepted : List E)
    (hname : f.name = name)
    (hrej : f.process_response_params params accepted = none) :
    negotiate_token (f :: fs) name params accepted
      = negotiate_token fs name params accepted ∧
    (∀ ts, negotiate_token fs name params accepted = none →
      process_extensions (f :: fs) ((name, params) :: ts) accepted
        = .error (.invalidHandshake (unsupported_extension_msg name params))) := by
  have hskip : negotiate_token (f :: fs) name params accepted
      = negotiate_token fs name params accepted := by
    show (if f.name = name then
        match f.process_response_params params accepted with
        | some e => some e
        | none => negotiate_token fs name params accepted
      else negotiate_token fs name params accepted)
      = negotiate_token fs name params accepted
    simp [hname, hrej]
  refine ⟨hskip, fun ts hnone => ?_⟩
  unfold process_extensions
  rw [hskip]
  simp [hnone]

/-- C5 witness: the skip equation at the concrete factories and token of
`test_multiple_supported_extension_parameters`. -/
theorem claim_C5_witness :
    negotiate_token
        [ClientOpExtensionFactory (some "this"), ClientOpExtensionFactory (some "that")]
        "x-op" [("op", some "that")] []
      = negotiate_token [ClientOpExtensionFactory (some "that")]
        "x-op" [("op", some "that")] [] :=
  (claim_C5 (ClientOpExtensionFactory (some "this")) [ClientOpExtensionFactory (some "that")]
    "x-op" [("op", some "that")] [] (by decide) (by decide)).1

/-- If the first `n + 1` elements of `l` are `pre ++ [e]` with `n` the
length of `pre`, then the element of `l` at index `n` is `e`. -/
theorem getD_of_take_append {α : Type} (pre : List α) :
    ∀ (l : List α) (e d : α), l.take (pre.length + 1) = pre ++ [e] →
      l.getD pre.length d = e := by
  induction pre with
  | nil =>
    intro l e d h
    cases l with
    | nil => simp at h
    | cons a t =>
      simp [List.take_succ_cons] at h
      simp [h]
  | cons p ps ih =>
    intro l e d h
    cases l with
    | nil => simp at h
    | cons a t =>
      rw [List.length_cons, List.take_succ_cons] at h
      rw [List.cons_append] at h
      injection h with h1 h2
      simpa using ih t e d h2

/-- The client of `test_multiple_extensions_order`: factories offered in
order `[x-op, x-rsv2]`. -/
def c7client : ClientConnection TestExtension :=
  mkClient [ClientOpExtensionFactory none, ClientRsv2ExtensionFactory] []

/-- The accepting response advertising the extensions in the opposite
order, `x-rsv2` then `x-op;op`. -/
def c7resp : Response :=
  ((make_accept_response c7client.connect.request).addHeader
    "Sec-WebSocket-Extensions" "x-rsv2").addHeader "Sec-WebSocket-Extensions" "x-op;op"

/-- C7: with client factories in order `[x-op, x-rsv2]` and the server
advertising `[x-rsv2, x-op]`, negotiation yields the extensions in server
order `[Rsv2Extension, OpExtension]`; and in general, a successful
`process_extensions` run extends the already-accepted list by exactly one
extension per server token, in server order: the extension at position
`acc.length + i` of the result is the one negotiated from the `i`-th server
token against the extensions accepted before it. -/
theorem claim_C7 :
    (c7client.process_response c7resp
      = .ok ([TestExtension.Rsv2Extension, TestExtension.OpExtension none], none)) ∧
    (∀ (E : Type) (dflt : E) (factories : List (ExtensionFactory E))
        (ts : List (String × List ExtParam)) (acc exts : List E),
      process_extensions factories ts acc = .ok exts →
      exts.take acc.length = acc ∧
      exts.length = acc.length + ts.length ∧
      ∀ i, i < ts.length →
        negotiate_token factories (ts.getD i ("", [])).1 (ts.getD i ("", [])).2
            (exts.take (acc.length + i))
          = some (exts.getD (acc.length + i) dflt)) := by
  constructor
  · decide
  · intro E dflt factories ts
    induction ts with
    | nil =>
      intro acc exts h
      unfold process_extensions at h
      injection h with h
      subst h
      refine ⟨List.take_length acc, by simp, fun i hi => by simp at hi⟩
    | cons t ts ih =>
      intro acc exts h
      unfold process_extensions at h
      cases hneg : negotiate_token factories t.1 t.2 acc with
      | none => rw [hneg] at h; cases h
      | some e =>
        rw [hneg] at h
        obtain ⟨htake, hlen, hidx⟩ := ih (acc ++ [e]) exts h
        simp only [List.length_append, List.length_cons, List.length_nil,
          Nat.zero_add] at htake hlen hidx
        have htake0 : exts.take acc.length = acc := by
          have h2 := congrArg (List.take acc.length) htake
          rw [List.take_take, Nat.min_eq_left (Nat.le_succ _), List.take_left] at h2
          exact h2
        refine ⟨htake0, by rw [hlen, List.length_cons]; omega, fun i hi => ?_⟩
        cases i with
        | zero =>
          rw [List.getD_cons_zero, Nat.add_zero, htake0, hneg]
          have : exts.getD acc.length dflt = e := getD_of_take_append acc exts e dflt htake
          rw [this]
        | succ j =>
          rw [List.getD_cons_succ]
          have harith : acc.length + (j + 1) = acc.length + 1 + j := by omega
          rw [harith]
          exact hidx j (by simp only [List.length_cons] at hi; omega)

/-- C7 witness: the general order statement applied to the concrete
negotiation of `test_multiple_extensions_order`, at the first server token:
`x-rsv2` is negotiated against no prior extensions and lands first. -/
theorem claim_C7_witness :
    negotiate_token [ClientOpExtensionFactory none, ClientRsv2ExtensionFactory]
        "x-rsv2" [] []
      = some TestExtension.Rsv2Extension :=
  (claim_C7.2 TestExtension TestExtension.Rsv2Extension
    [ClientOpExtensionFactory none, ClientRsv2ExtensionFactory]
    [("x-rsv2", []), ("x-op", [("op", none)])] []
    [TestExtension.Rsv2Extension, TestExtension.OpExtension none]
    (by decide)).2.2 0 (by decide)

/-- When the response advertises no extensions, negotiation yields none,
whatever the offered factories. -/
theorem process_extensions_header_none {E : Type} (factories : List (ExtensionFactory E))
    (resp : Response) (h : resp.headers.getAll "Sec-WebSocket-Extensions" = []) :
    process_extensions_header factories resp = .ok [] := by
  unfold process_extensions_header
  rw [h]
  rfl

/-- When the collected subprotocol values are two single-name tokens,
negotiation fails with the comma-joined `multiple subprotocols` error. -/
theorem process_subprotocol_multiple (offered : List String) (resp : Response)
    (s1 s2 : String)
    (hvs : resp.headers.getAll "Sec-WebSocket-Protocol" = [s1, s2])
    (hoff : offered.isEmpty = false)
    (t1 : parse_subprotocol_value s1 = [s1]) (t2 : parse_subprotocol_value s2 = [s2]) :
    process_subprotocol_header offered resp
      = .error (.invalidHandshake ("multiple subprotocols: " ++ joinComma [s1, s2])) := by
  unfold process_subprotocol_header
  rw [hvs]
  simp [hoff, t1, t2]

/-- C8: if the client offered at least two subprotocols and the server's
response carries `Sec-WebSocket-Protocol` assigned twice with two distinct
offered names, `process_response` fails with the `multiple subprotocols`
error naming both subprotocols, comma-joined, in the order received. -/
theorem claim_C8 {E : Type} (c : ClientConnection E) (s1 s2 : String)
    (hext : c.available_extensions = [])
    (hlen : 2 ≤ c.available_subprotocols.length)
    (h1 : s1 ∈ c.available_subprotocols) (h2 : s2 ∈ c.available_subprotocols)
    (_hne : s1 ≠ s2)
    (t1 : parse_subprotocol_value s1 = [s1]) (t2 : parse_subprotocol_value s2 = [s2]) :
    c.process_response
        (((make_accept_response c.connect.request).addHeader
          "Sec-WebSocket-Protocol" s1).addHeader "Sec-WebSocket-Protocol" s2)
      = .error (.invalidHandshake ("multiple subprotocols: " ++ joinComma [s1, s2])) ∧
    joinComma [s1, s2] = s1 ++ ", " ++ s2 := by
  refine ⟨?_, by simp [joinComma, String.append_assoc]⟩
  obtain ⟨host, resource, origin, aexts, asubs, key, st, buf, exts0, sub0⟩ := c
  dsimp only at hext hlen h1 h2 t1 t2 ⊢
  subst hext
  cases asubs with
  | nil => simp at hlen
  | cons a rest =>
    cases origin with
    | none =>
      rw [process_response_of_valid_handshake _ _ "Upgrade" "websocket" (by rfl) (by rfl)
          (by rfl) (by rfl) (by rfl)]
      rw [process_extensions_header_none _ _ (by rfl)]
      simp only []
      rw [process_subprotocol_multiple (a :: rest) _ s1 s2 (by rfl) (by rfl) t1 t2]
    | some o =>
      rw [process_response_of_valid_handshake _ _ "Upgrade" "websocket" (by rfl) (by rfl)
          (by rfl) (by rfl) (by rfl)]
      rw [process_extensions_header_none _ _ (by rfl)]
      simp only []
      rw [process_subprotocol_multiple (a :: rest) _ s1 s2 (by rfl) (by rfl) t1 t2]

/-- C8 witness: the two assignments of `test_multiple_subprotocols`
(`superchat`, then `chat`, both offered). -/
theorem claim_C8_witness :
    (mkClient [] ["superchat", "chat"]).process_response
        (((make_accept_response (mkClient [] ["superchat", "chat"]).connect.request).addHeader
          "Sec-WebSocket-Protocol" "superchat").addHeader "Sec-WebSocket-Protocol" "chat")
      = .error (.invalidHandshake ("multiple subprotocols: " ++ joinComma ["superchat", "chat"])) ∧
    joinComma ["superchat", "chat"] = "superchat" ++ ", " ++ "chat" :=
  claim_C8 (mkClient [] ["superchat", "chat"]) "superchat" "chat" rfl (by decide)
    (by decide) (by decide) (by decide) (by decide) (by decide)

/-- Every response the external parser model produces has no body: the
parser reads only the head. -/
theorem parse_response_body_none (data : String) (resp : Response)
    (h : parse_response data = some resp) : resp.body = none := by
  unfold parse_response at h
  split at h
  · cases h
  · split at h
    · cases h
    · split at h
      · cases h
      · split at h
        · cases h
        · injection h with h
          subst h
          rfl

/-- C9 counterexample: a complete 404 response announcing a body via
`Content-Length` and carrying the body bytes produces a `Reject` whose
captured `Response` has `body = none` — the body is discarded, not
captured. -/
theorem claim_C9_cex :
    (receive_data (mkClient [] []) reject_data).1
      = ([Event.reject ⟨reject_resp, none⟩], "") ∧
    reject_resp.headers.getAll "Content-Length" = ["9"] ∧
    reject_resp.body = none :=
  ⟨by decide, by decide, rfl⟩

/-- C9 as amended: for every complete non-101 response fed to
`receive_data`, the `Response` carried on the resulting `Reject` event has
`body = none` — announced bodies are not read (the parser stops at the
head), rather than captured as raw bytes. -/
theorem claim_C9 {E : Type} (c : ClientConnection E) (data : String) (resp : Response)
    (hbuf : c.buffer = "") (hparse : parse_response data = some resp)
    (hstatus : resp.status_code ≠ 101) :
    (receive_data c data).1 = ([Event.reject ⟨resp, none⟩], "") ∧ resp.body = none := by
  refine ⟨?_, parse_response_body_none data resp hparse⟩
  unfold receive_data
  rw [hbuf, string_empty_append]
  simp only [hparse]
  simp [hstatus]

/-- A 500 response head with a body, for the C9 witness. -/
def err_data : String :=
  "HTTP/1.1 500 Internal Server Error\r\nContent-Length: 4\r\n\r\nOops"

/-- The parsed head of `err_data`. -/
def err_resp : Response :=
  { status_code := 500, reason_phrase := "Internal Server Error",
    headers := ⟨[("Content-Length", "4")]⟩, body := none }

/-- C9 witness: the amended statement at a concrete 500 response. -/
theorem claim_C9_witness :
    (receive_data (mkClient [] []) err_data).1 = ([Event.reject ⟨err_resp, none⟩], "") ∧
    err_resp.body = none :=
  claim_C9 (mkClient [] []) err_data err_resp (by decide) (by decide) (by decide)

end Websockets
